import Mathlib

/-
Verification of the tiling/layout geometry of the PNGtoSamples repository
(`LemonPark.py`, `LemonPaper.py`, `PNGPDF.py`).

The scripts' arithmetic is embedded shallowly:
  * Python ints become `ℕ` (all quantities involved are nonnegative);
  * Python floats become `ℚ` (the scripts' point arithmetic is exact on the
    small rationals that actually occur);
  * Python `int(x)` (truncation toward zero) is modelled by `py_int`;
  * Python `//` on nonnegative ints is `ℕ` division; exceptions raised along
    the way (Pillow's `resize` rejecting a zero target dimension with
    `ValueError`, or a Python division whose divisor is zero raising
    `ZeroDivisionError`), all caught by the scripts' blanket `except`
    handler, are modelled by `Except` values;
  * the file system is an oracle `String → Bool` standing for
    `os.path.exists`, and `overlay_footer` / `create_pdf` return their final
    output-file name, or an error / `none` on the paths where the scripts
    print an error and produce no output file.
-/

/-- Python `int(q)`: truncation toward zero (floor for nonnegative `q`,
ceiling for negative `q`). -/
def py_int (q : ℚ) : ℤ :=
  if q < 0 then ⌈q⌉ else ⌊q⌋

/-- Whether `p` is a prefix of `s`, on character lists. -/
def list_starts_with : List Char → List Char → Bool
  | [], _ => true
  | _ :: _, [] => false
  | p :: ps, c :: cs => p == c && list_starts_with ps cs

/-- One fuelled pass of left-to-right, non-overlapping pattern replacement on
character lists; `fuel ≥ s.length` and a nonempty pattern make it total in
the intended sense, and the structural recursion on `fuel` keeps it
kernel-computable. -/
def replace_aux (pat rep : List Char) : ℕ → List Char → List Char
  | _, [] => []
  | 0, s => s
  | fuel + 1, c :: cs =>
      if list_starts_with pat (c :: cs) then
        rep ++ replace_aux pat rep fuel ((c :: cs).drop pat.length)
      else c :: replace_aux pat rep fuel cs

/-- Python `s.replace(pattern, replacement)` (replace every non-overlapping
occurrence, left to right) for a nonempty pattern; the scripts only ever call
it with the pattern `"temp_"`, so the empty-pattern case (where Python
interleaves the replacement) is modelled as the identity. -/
def py_str_replace (s pattern replacement : String) : String :=
  if pattern = "" then s
  else ⟨replace_aux pattern.data replacement.data s.data.length s.data⟩

/-- Error taxonomy for the modelled failure paths.  `zeroDivision` stands for
Python's `ZeroDivisionError`, `valueError` for Pillow's
`ValueError: height and width must be > 0` raised by `Image.resize` when a
target dimension is 0, `assetNotFound` for the footer-lookup failure path
(missing table entry or missing file), and `invalidInput` for the spec's
hypothesised input-validation error (never produced by the code). -/
inductive PdfError where
  | zeroDivision
  | valueError
  | invalidInput
  | assetNotFound
deriving DecidableEq, Repr

namespace LemonPark

/-- `HORIZONTAL_EXTENSION_POINTS = 8.5039` (LemonPark.py line 16). -/
def HORIZONTAL_EXTENSION_POINTS : ℚ := 85039 / 10000

/-- `FOOTER_DIR` (LemonPark.py line 11). -/
def FOOTER_DIR : String := "/Users/homeroruiz/Downloads/Compound/LemonPark/"

/-- `tile_width_points = width_ft * 12 * 72` (LemonPark.py line 45). -/
def tile_width_points (width_ft : ℕ) : ℕ := width_ft * 12 * 72

/-- `total_height_points = height_ft * 12 * 72` (LemonPark.py line 46). -/
def total_height_points (height_ft : ℕ) : ℕ := height_ft * 12 * 72

/-- `extended_tile_width = tile_width_points + 2 * HORIZONTAL_EXTENSION_POINTS`
(LemonPark.py line 49). -/
def extended_tile_width (width_ft : ℕ) : ℚ :=
  (tile_width_points width_ft : ℚ) + 2 * HORIZONTAL_EXTENSION_POINTS

/-- The page width chosen at LemonPark.py lines 51-57:
`2 * extended_tile_width + spacing_points` for a double blade, otherwise
`extended_tile_width`.  It depends only on `width_ft`, `double_blade` and
`spacing_points`, never on the input image. -/
def total_width_points (width_ft : ℕ) (double_blade : Bool) (spacing_points : ℚ) : ℚ :=
  if double_blade then 2 * extended_tile_width width_ft + spacing_points
  else extended_tile_width width_ft

/-- `scale_factor = tile_width_points / img_width` (LemonPark.py line 65). -/
def scale_factor (img_width width_ft : ℕ) : ℚ :=
  (tile_width_points width_ft : ℚ) / (img_width : ℚ)

/-- `new_height = int(img_height * scale_factor)` (LemonPark.py line 67); the
value is nonnegative, so `py_int` here is a floor and `toNat` is faithful. -/
def new_height (img_width img_height width_ft : ℕ) : ℕ :=
  (py_int ((img_height : ℚ) * scale_factor img_width width_ft)).toNat

/-- `tile_count = (total_height_points // new_height) + 1` (LemonPark.py
line 77), as a function of the two nonnegative ints it divides. -/
def tile_count (total_height new_height : ℕ) : ℕ :=
  total_height / new_height + 1

/-- The result of the size/count computation of `create_pdf`
(LemonPark.py lines 65-77). -/
structure TilePlan where
  new_width : ℕ
  new_height : ℕ
  tile_count : ℕ
deriving DecidableEq, Repr

/-- LemonPark.py lines 65-77 as one planning step, in the source's own
order.  `img_width = 0` would make line 65's
`tile_width_points / img_width` raise `ZeroDivisionError` (defensive only: a
decoded image always has positive width).  Line 70's
`img.resize((new_width, new_height), ...)` runs next and Pillow rejects any
zero target dimension with `ValueError: height and width must be > 0`, so a
zero `new_height` fails there; line 77's
`total_height_points // new_height` is therefore only ever executed with
`new_height > 0` and can never raise `ZeroDivisionError` itself.  Every one
of these exceptions lands in the blanket handler at line 124. -/
def plan_tiles (img_width img_height width_ft height_ft : ℕ) :
    Except PdfError TilePlan :=
  if img_width = 0 then .error .zeroDivision
  else
    let nh := new_height img_width img_height width_ft
    if tile_width_points width_ft = 0 ∨ nh = 0 then .error .valueError
    else .ok ⟨tile_width_points width_ft, nh,
              tile_count (total_height_points height_ft) nh⟩

/-- The x-offsets at which `create_pdf` draws the image column(s)
(LemonPark.py lines 93 and 99). -/
def image_x_offsets (width_ft : ℕ) (spacing_points : ℚ) (double_blade : Bool) :
    List ℚ :=
  if double_blade then
    [HORIZONTAL_EXTENSION_POINTS,
     extended_tile_width width_ft + spacing_points + HORIZONTAL_EXTENSION_POINTS]
  else [HORIZONTAL_EXTENSION_POINTS]

/-- The temporary output name chosen at LemonPark.py lines 54 and 57. -/
def output_pdf (height_ft : ℕ) (label : String) (double_blade : Bool) : String :=
  if double_blade then
    "temp_" ++ toString height_ft ++ "ft_" ++ label ++ "_DoubleBlade.pdf"
  else
    "temp_" ++ toString height_ft ++ "ft_" ++ label ++ ".pdf"

/-- The footer lookup table (LemonPark.py lines 134-139), with `.get`'s
missing-key result `None` as `none`. -/
def footer_files (height_ft : ℕ) (label : String) : Option String :=
  if height_ft = 13 ∧ label = "TRAD" then some (FOOTER_DIR ++ "Footer_13ft_TRAD.pdf")
  else if height_ft = 27 ∧ label = "TRAD" then some (FOOTER_DIR ++ "Footer_27ft_TRAD.pdf")
  else if height_ft = 13 ∧ label = "P&S" then some (FOOTER_DIR ++ "Footer_13ft_P&S.pdf")
  else if height_ft = 27 ∧ label = "P&S" then some (FOOTER_DIR ++ "Footer_27ft_P&S.pdf")
  else none

/-- A `fitz.Rect(x0, y0, x1, y1)` as used by `overlay_footer`. -/
structure Rect where
  x0 : ℚ
  y0 : ℚ
  x1 : ℚ
  y1 : ℚ
deriving DecidableEq, Repr

/-- `extended_tile_width` as recomputed from the page at LemonPark.py
line 167: `(base_rect.width - spacing_points) / 2` for a double blade,
otherwise `base_rect.width`. -/
def page_extended_tile_width (page_width spacing_points : ℚ) (double_blade : Bool) : ℚ :=
  if double_blade then (page_width - spacing_points) / 2 else page_width

/-- `original_tile_width = extended_tile_width - 2 * HORIZONTAL_EXTENSION_POINTS`
(LemonPark.py line 168). -/
def page_original_tile_width (page_width spacing_points : ℚ) (double_blade : Bool) : ℚ :=
  page_extended_tile_width page_width spacing_points double_blade -
    2 * HORIZONTAL_EXTENSION_POINTS

/-- `footer_height = footer_pixmap.height * (original_tile_width / footer_pixmap.width)`
(LemonPark.py line 171). -/
def footer_height (footer_pixmap_width footer_pixmap_height : ℕ)
    (original_tile_width : ℚ) : ℚ :=
  (footer_pixmap_height : ℚ) * (original_tile_width / (footer_pixmap_width : ℚ))

/-- The rectangles into which `overlay_footer` stamps the footer bitmap on one
page (LemonPark.py lines 167-198): one rectangle per tile column, flush
against the bottom of the page. -/
def footer_rects (page_width page_height spacing_points : ℚ) (double_blade : Bool)
    (footer_pixmap_width footer_pixmap_height : ℕ) : List Rect :=
  let etw := page_extended_tile_width page_width spacing_points double_blade
  let otw := etw - 2 * HORIZONTAL_EXTENSION_POINTS
  let fh := footer_height footer_pixmap_width footer_pixmap_height otw
  let y1 := page_height
  let y0 := y1 - fh
  if double_blade then
    let left_x := HORIZONTAL_EXTENSION_POINTS
    let right_x := etw + spacing_points + HORIZONTAL_EXTENSION_POINTS
    [⟨left_x, y0, left_x + otw, y1⟩, ⟨right_x, y0, right_x + otw, y1⟩]
  else
    [⟨HORIZONTAL_EXTENSION_POINTS, y0, HORIZONTAL_EXTENSION_POINTS + otw, y1⟩]

/-- The `(x, y)` positions at which `overlay_footer` stamps the design-name
text on one page (LemonPark.py lines 184-187 and 200-206).  Note the single
blade uses `0.54` at line 186 while the double blade uses `0.53` at line 203. -/
def text_positions (page_width page_height spacing_points : ℚ) (double_blade : Bool)
    (footer_pixmap_width footer_pixmap_height : ℕ) : List (ℚ × ℚ) :=
  let etw := page_extended_tile_width page_width spacing_points double_blade
  let otw := etw - 2 * HORIZONTAL_EXTENSION_POINTS
  let fh := footer_height footer_pixmap_width footer_pixmap_height otw
  let y1 := page_height
  if double_blade then
    let x0_left := HORIZONTAL_EXTENSION_POINTS
    let x0_right := etw + spacing_points + HORIZONTAL_EXTENSION_POINTS
    let text_y := y1 - fh * (53 / 100)
    [(x0_left + otw * (77 / 100), text_y), (x0_right + otw * (77 / 100), text_y)]
  else
    [(HORIZONTAL_EXTENSION_POINTS + otw * (77 / 100), y1 - fh * (54 / 100))]

/-- The file-level control flow of `overlay_footer` (LemonPark.py
lines 134-226): look the footer asset up by `(height_ft, label)`, fail (print
and return, producing no final file) when the key is unmapped or the file does
not exist on the file system `fs`, otherwise save the final PDF under the base
name with its `temp_` prefix removed. -/
def overlay_footer (fs : String → Bool) (base_pdf_path : String)
    (height_ft : ℕ) (label : String) : Except PdfError String :=
  match footer_files height_ft label with
  | none => .error .assetNotFound
  | some footer_pdf_path =>
      if fs footer_pdf_path then
        .ok (py_str_replace base_pdf_path "temp_" "")
      else .error .assetNotFound

/-- The per-variant control flow of `create_pdf` (LemonPark.py lines 35-125):
plan the tiling, compose the temporary PDF, then overlay the footer; any error
is caught by the blanket handler at line 124 (printed, and the variant
produces no final output file, hence `none`). -/
def create_pdf (fs : String → Bool) (img_width img_height : ℕ)
    (height_ft : ℕ) (label : String) (double_blade : Bool) : Option String :=
  match plan_tiles img_width img_height 2 height_ft with
  | .error _ => none
  | .ok _ =>
      match overlay_footer fs (output_pdf height_ft label double_blade)
          height_ft label with
      | .error _ => none
      | .ok final_pdf_path => some final_pdf_path

/-- The variant loop of `__main__` (LemonPark.py lines 265-268): each
`(label, height, blade)` combination is processed by its own `create_pdf`
call, whose blanket handler isolates its failure from the other variants. -/
def main_run (fs : String → Bool) (img_width img_height : ℕ) :
    List (Option String) :=
  [("P&S", 13, false), ("P&S", 13, true), ("P&S", 27, false), ("P&S", 27, true),
   ("TRAD", 13, false), ("TRAD", 13, true), ("TRAD", 27, false), ("TRAD", 27, true)].map
    (fun v => create_pdf fs img_width img_height v.2.1 v.1 v.2.2)

end LemonPark

namespace LemonPaper

/-- `tile_width_points = width_ft * 12 * 72` (LemonPaper.py line 16). -/
def tile_width_points (width_ft : ℕ) : ℕ := width_ft * 12 * 72

/-- `total_height_points = height_ft * 12 * 72` (LemonPaper.py line 17). -/
def total_height_points (height_ft : ℕ) : ℕ := height_ft * 12 * 72

/-- `scale_factor = tile_width_points / img_width` (LemonPaper.py line 29). -/
def scale_factor (img_width width_ft : ℕ) : ℚ :=
  (tile_width_points width_ft : ℚ) / (img_width : ℚ)

/-- `new_height = img_height * scale_factor` (LemonPaper.py line 31): kept as
a float, never truncated before the tile count is taken. -/
def new_height (img_width img_height width_ft : ℕ) : ℚ :=
  (img_height : ℚ) * scale_factor img_width width_ft

/-- `tile_count = int(total_height_points / new_height) + 1`
(LemonPaper.py line 37), on the float `new_height`. -/
def tile_count (img_width img_height width_ft height_ft : ℕ) : ℤ :=
  py_int ((total_height_points height_ft : ℚ) /
    new_height img_width img_height width_ft) + 1

/-- The page size chosen at LemonPaper.py line 40:
`(tile_width_points, total_height_points)`, image-independent; LemonPaper has
no double-blade mode, its page width is exactly the tile width. -/
def page_size (width_ft height_ft : ℕ) : ℕ × ℕ :=
  (tile_width_points width_ft, total_height_points height_ft)

end LemonPaper

namespace PNGPDF

/-- `tile_width_points = width_ft * 12 * 72` (PNGPDF.py line 16). -/
def tile_width_points (width_ft : ℕ) : ℕ := width_ft * 12 * 72

/-- `total_height_points = height_ft * 12 * 72` (PNGPDF.py line 17). -/
def total_height_points (height_ft : ℕ) : ℕ := height_ft * 12 * 72

/-- `scale_factor = tile_width_points / img_width` (PNGPDF.py line 29). -/
def scale_factor (img_width width_ft : ℕ) : ℚ :=
  (tile_width_points width_ft : ℚ) / (img_width : ℚ)

/-- `new_height = img_height * scale_factor` (PNGPDF.py line 31), a float. -/
def new_height (img_width img_height width_ft : ℕ) : ℚ :=
  (img_height : ℚ) * scale_factor img_width width_ft

/-- `tile_count = int(total_height_points / new_height) + 1`
(PNGPDF.py line 37). -/
def tile_count (img_width img_height width_ft height_ft : ℕ) : ℤ :=
  py_int ((total_height_points height_ft : ℚ) /
    new_height img_width img_height width_ft) + 1

end PNGPDF

/-- The unit conversion both scripts inline at their lines 16-17 / 45-46
(spec §4.1): `feet * 12 * 72` points. -/
def feet_to_points (feet : ℚ) : ℚ := feet * 12 * 72

/-- `py_int` is the floor on nonnegative arguments. -/
lemma py_int_of_nonneg {q : ℚ} (h : 0 ≤ q) : py_int q = ⌊q⌋ := by
  simp [py_int, not_lt.mpr h]

/-- On a positive-width image, LemonPark's truncated scaled height is the
natural-number division `img_height * tile_width_points / img_width`. -/
lemma LemonPark.new_height_eq_div (img_width img_height width_ft : ℕ)
    (hw : 0 < img_width) :
    LemonPark.new_height img_width img_height width_ft =
      img_height * LemonPark.tile_width_points width_ft / img_width := by
  unfold LemonPark.new_height LemonPark.scale_factor
  have hq : (img_height : ℚ) * ((LemonPark.tile_width_points width_ft : ℚ) / (img_width : ℚ)) =
      ((img_height * LemonPark.tile_width_points width_ft : ℕ) : ℚ) / (img_width : ℚ) := by
    push_cast
    ring
  rw [hq, py_int_of_nonneg (by positivity), Rat.floor_natCast_div_natCast]
  exact Int.toNat_natCast _

/-- Evaluation lemma: the 3000×4500 image scaled to a 1728-point tile width
has truncated height 2592. -/
lemma new_height_3000_4500 : LemonPark.new_height 3000 4500 2 = 2592 := by
  rw [LemonPark.new_height_eq_div 3000 4500 2 (by norm_num)]
  decide

/-- Evaluation lemma: the 3456×5617 image scaled to a 1728-point tile width
has truncated height 2808 (the exact scaled height is 2808.5). -/
lemma new_height_3456_5617 : LemonPark.new_height 3456 5617 2 = 2808 := by
  rw [LemonPark.new_height_eq_div 3456 5617 2 (by norm_num)]
  decide

/-- Evaluation lemma: a 2000×1 image scaled to a 1728-point tile width has
truncated height 0, although its pixel height is positive. -/
lemma new_height_2000_1 : LemonPark.new_height 2000 1 2 = 0 := by
  rw [LemonPark.new_height_eq_div 2000 1 2 (by norm_num)]
  decide

/-- Evaluation lemma: a zero-height image has truncated height 0. -/
lemma new_height_3000_0 : LemonPark.new_height 3000 0 2 = 0 := by
  rw [LemonPark.new_height_eq_div 3000 0 2 (by norm_num)]
  decide

/-- Evaluation lemma: the plan for the 3000×4500 image at heightFt 13. -/
lemma plan_tiles_3000_4500_13 :
    LemonPark.plan_tiles 3000 4500 2 13 = .ok ⟨1728, 2592, 5⟩ := by
  simp [LemonPark.plan_tiles, new_height_3000_4500, LemonPark.tile_width_points,
    LemonPark.total_height_points, LemonPark.tile_count]

/-- Evaluation lemma: the plan for the 3000×4500 image at heightFt 27. -/
lemma plan_tiles_3000_4500_27 :
    LemonPark.plan_tiles 3000 4500 2 27 = .ok ⟨1728, 2592, 10⟩ := by
  simp [LemonPark.plan_tiles, new_height_3000_4500, LemonPark.tile_width_points,
    LemonPark.total_height_points, LemonPark.tile_count]

/-- Claim C9: the feet-to-points conversion is `feet * 864`; it is linear on
positive rationals, maps 13 to 11232 and 27 to 23328, and is the conversion
both scripts inline for tile width and total height. -/
theorem c9_feet_to_points_linear :
    (∀ f : ℚ, 0 < f → feet_to_points (2 * f) = 2 * feet_to_points f) ∧
    feet_to_points 13 = 11232 ∧
    feet_to_points 27 = 23328 ∧
    (∀ f : ℚ, feet_to_points f = f * 864) ∧
    (∀ width_ft : ℕ, (LemonPark.tile_width_points width_ft : ℚ) =
      feet_to_points (width_ft : ℚ)) ∧
    (∀ height_ft : ℕ, (LemonPark.total_height_points height_ft : ℚ) =
      feet_to_points (height_ft : ℚ)) ∧
    (∀ height_ft : ℕ, (PNGPDF.total_height_points height_ft : ℚ) =
      feet_to_points (height_ft : ℚ)) := by
  refine ⟨fun f _ => by unfold feet_to_points; ring, by norm_num [feet_to_points],
    by norm_num [feet_to_points], fun f => by unfold feet_to_points; ring,
    fun w => by push_cast [feet_to_points, LemonPark.tile_width_points]; ring,
    fun h => by push_cast [feet_to_points, LemonPark.total_height_points]; ring,
    fun h => by push_cast [feet_to_points, PNGPDF.total_height_points]; ring⟩

/-- Witness for C9 at `f = 3`. -/
theorem c9_feet_to_points_linear_witness :
    (0 : ℚ) < 3 ∧ feet_to_points (2 * 3) = 2 * feet_to_points 3 :=
  ⟨by norm_num, c9_feet_to_points_linear.1 3 (by norm_num)⟩

/-- Claim C1: the tile count is `floor(total_height / tile_height) + 1`, and on
the spec's scenario (3000×4500 image, widthFt 2, heightFt 13) the planner
computes tile width 1728, scale 0.576, tile height 2592, total height 11232
and tile count 5; PNGPDF's float-based count agrees there. -/
theorem c1_tile_count_floor_plus_one :
    (∀ total_height new_height : ℕ, 0 < new_height →
      (LemonPark.tile_count total_height new_height : ℤ) =
        ⌊(total_height : ℚ) / (new_height : ℚ)⌋ + 1) ∧
    LemonPark.tile_width_points 2 = 1728 ∧
    LemonPark.scale_factor 3000 2 = 576 / 1000 ∧
    LemonPark.new_height 3000 4500 2 = 2592 ∧
    LemonPark.total_height_points 13 = 11232 ∧
    LemonPark.plan_tiles 3000 4500 2 13 = .ok ⟨1728, 2592, 5⟩ ∧
    PNGPDF.tile_count 3000 4500 2 13 = 5 := by
  refine ⟨fun th nh _ => ?_, by decide,
    by norm_num [LemonPark.scale_factor, LemonPark.tile_width_points],
    new_height_3000_4500, by decide,
    plan_tiles_3000_4500_13,
    by norm_num [PNGPDF.tile_count, PNGPDF.new_height, PNGPDF.scale_factor,
      PNGPDF.total_height_points, PNGPDF.tile_width_points, py_int]⟩
  unfold LemonPark.tile_count
  rw [Rat.floor_natCast_div_natCast]
  push_cast
  ring

/-- Witness for C1 at the scenario values 11232 and 2592. -/
theorem c1_tile_count_floor_plus_one_witness :
    0 < 2592 ∧ (LemonPark.tile_count 11232 2592 : ℤ) =
      ⌊((11232 : ℕ) : ℚ) / ((2592 : ℕ) : ℚ)⌋ + 1 :=
  ⟨by decide, c1_tile_count_floor_plus_one.1 11232 2592 (by decide)⟩

/-- Claim C2 fails as stated: with the 3000×4500 image (tile height 2592) and
a total height of 2592 points (heightFt 3), the tile height divides the total
height exactly, the planner still adds one tile (count 2), and
`(tileCount - 1) * tileHeight = 2592` is not `< 2592`. -/
theorem c2_counterexample :
    LemonPark.new_height 3000 4500 2 = 2592 ∧
    LemonPark.total_height_points 3 = 2592 ∧
    LemonPark.tile_count (LemonPark.total_height_points 3)
      (LemonPark.new_height 3000 4500 2) = 2 ∧
    ¬ ((LemonPark.tile_count (LemonPark.total_height_points 3)
          (LemonPark.new_height 3000 4500 2) - 1) *
        LemonPark.new_height 3000 4500 2 <
        LemonPark.total_height_points 3) := by
  rw [new_height_3000_4500]
  refine ⟨rfl, by decide, by decide, by decide⟩

/-- Claim C2, amended: for every positive total height and tile height, the
computed count covers the total height (`tileCount * tileHeight ≥ total`),
and the wasted overshoot is at most one tile in the weak, non-strict sense
`(tileCount - 1) * tileHeight ≤ total`. -/
theorem c2_amended_coverage (total_height new_height : ℕ)
    (_hth : 0 < total_height) (hnh : 0 < new_height) :
    total_height ≤ LemonPark.tile_count total_height new_height * new_height ∧
    (LemonPark.tile_count total_height new_height - 1) * new_height ≤
      total_height := by
  unfold LemonPark.tile_count
  constructor
  · exact le_of_lt ((Nat.div_lt_iff_lt_mul hnh).mp (Nat.lt_succ_self _))
  · simpa using Nat.div_mul_le_self total_height new_height

/-- Witness for the amended C2 at total height 2592, tile height 2592. -/
theorem c2_amended_coverage_witness :
    0 < 2592 ∧
    (2592 ≤ LemonPark.tile_count 2592 2592 * 2592 ∧
      (LemonPark.tile_count 2592 2592 - 1) * 2592 ≤ 2592) :=
  ⟨by decide, c2_amended_coverage 2592 2592 (by decide) (by decide)⟩

/-- Claim C3 fails as stated in the LemonPark revision: with `widthFt = 2` and
spacing 20, the single-blade page width is `1745.0078`, not the tile width
`1728`, and the double-blade page width is `3510.0156`, not
`2 * 1728 + 20 = 3476` — each blade also carries the `2 × 8.5039`-point
horizontal extension. -/
theorem c3_counterexample :
    LemonPark.total_width_points 2 false 20 ≠
      (LemonPark.tile_width_points 2 : ℚ) ∧
    LemonPark.total_width_points 2 true 20 ≠
      2 * (LemonPark.tile_width_points 2 : ℚ) + 20 := by
  constructor <;>
    norm_num [LemonPark.total_width_points, LemonPark.extended_tile_width,
      LemonPark.tile_width_points, LemonPark.HORIZONTAL_EXTENSION_POINTS]

/-- Claim C3, amended: page width is image-independent, but in LemonPark each
blade is widened by twice the horizontal extension: the single-blade page
width is `tileWidth + 2 * 8.5039` and the double-blade page width is
`2 * (tileWidth + 2 * 8.5039) + spacing`; in the LemonPaper revision (which
has no horizontal extension and no double-blade mode) the page width equals
the tile width exactly. -/
theorem c3_amended_page_width (width_ft height_ft : ℕ) (spacing_points : ℚ) :
    LemonPark.total_width_points width_ft false spacing_points =
      (LemonPark.tile_width_points width_ft : ℚ) +
        2 * LemonPark.HORIZONTAL_EXTENSION_POINTS ∧
    LemonPark.total_width_points width_ft true spacing_points =
      2 * ((LemonPark.tile_width_points width_ft : ℚ) +
        2 * LemonPark.HORIZONTAL_EXTENSION_POINTS) + spacing_points ∧
    (LemonPaper.page_size width_ft height_ft).1 =
      LemonPaper.tile_width_points width_ft := by
  refine ⟨?_, ?_, rfl⟩ <;>
    simp [LemonPark.total_width_points, LemonPark.extended_tile_width]

/-- Claim C4: the footer asset is looked up by `(height, label)` in the fixed
4-entry table; an unmapped combination or a missing file yields the
`AssetNotFound` failure path (reported, and no final output file for that
variant), while the other variants of the same run still complete: with the
`(27, "P&S")` footer file missing, the `(13, "P&S")` variant still produces
its output. -/
theorem c4_footer_lookup_isolated :
    LemonPark.footer_files 13 "TRAD" =
      some (LemonPark.FOOTER_DIR ++ "Footer_13ft_TRAD.pdf") ∧
    LemonPark.footer_files 27 "TRAD" =
      some (LemonPark.FOOTER_DIR ++ "Footer_27ft_TRAD.pdf") ∧
    LemonPark.footer_files 13 "P&S" =
      some (LemonPark.FOOTER_DIR ++ "Footer_13ft_P&S.pdf") ∧
    LemonPark.footer_files 27 "P&S" =
      some (LemonPark.FOOTER_DIR ++ "Footer_27ft_P&S.pdf") ∧
    LemonPark.footer_files 15 "P&S" = none ∧
    (∀ fs base, LemonPark.overlay_footer fs base 15 "P&S" =
      .error .assetNotFound) ∧
    (∀ base, LemonPark.overlay_footer
        (fun p => p != LemonPark.FOOTER_DIR ++ "Footer_27ft_P&S.pdf")
        base 27 "P&S" = .error .assetNotFound) ∧
    LemonPark.create_pdf
      (fun p => p != LemonPark.FOOTER_DIR ++ "Footer_27ft_P&S.pdf")
      3000 4500 27 "P&S" false = none ∧
    LemonPark.create_pdf
      (fun p => p != LemonPark.FOOTER_DIR ++ "Footer_27ft_P&S.pdf")
      3000 4500 13 "P&S" false = some "13ft_P&S.pdf" ∧
    LemonPark.main_run
      (fun p => p != LemonPark.FOOTER_DIR ++ "Footer_27ft_P&S.pdf")
      3000 4500 =
      [some "13ft_P&S.pdf", some "13ft_P&S_DoubleBlade.pdf", none, none,
       some "13ft_TRAD.pdf", some "13ft_TRAD_DoubleBlade.pdf",
       some "27ft_TRAD.pdf", some "27ft_TRAD_DoubleBlade.pdf"] := by
  refine ⟨rfl, rfl, rfl, rfl, rfl, fun fs base => rfl, fun base => rfl,
    ?_, ?_, ?_⟩
  · unfold LemonPark.create_pdf
    rw [plan_tiles_3000_4500_27]
    rfl
  · unfold LemonPark.create_pdf
    rw [plan_tiles_3000_4500_13]
    rfl
  · simp only [LemonPark.main_run, List.map_cons, List.map_nil]
    unfold LemonPark.create_pdf
    rw [plan_tiles_3000_4500_13, plan_tiles_3000_4500_27]
    rfl

/-- Claim C8: LemonPaper keeps the scaled tile height as a float while
LemonPark truncates it to an integer, and the two revisions disagree on a
boundary case: a 3456×5617 image at heightFt 13 has exact scaled height
2808.5; LemonPaper computes `int(11232 / 2808.5) + 1 = 4` tiles while
LemonPark computes `11232 // 2808 + 1 = 5`. -/
theorem c8_rounding_policy_divergence :
    LemonPaper.new_height 3456 5617 2 = 5617 / 2 ∧
    LemonPark.new_height 3456 5617 2 = 2808 ∧
    LemonPaper.tile_count 3456 5617 2 13 = 4 ∧
    LemonPark.tile_count (LemonPark.total_height_points 13)
      (LemonPark.new_height 3456 5617 2) = 5 ∧
    (LemonPark.tile_count (LemonPark.total_height_points 13)
        (LemonPark.new_height 3456 5617 2) : ℤ) ≠
      LemonPaper.tile_count 3456 5617 2 13 := by
  have hpaper : LemonPaper.tile_count 3456 5617 2 13 = 4 := by
    norm_num [LemonPaper.tile_count, LemonPaper.new_height,
      LemonPaper.scale_factor, LemonPaper.total_height_points,
      LemonPaper.tile_width_points, py_int]
  have hpark : LemonPark.tile_count (LemonPark.total_height_points 13)
      (LemonPark.new_height 3456 5617 2) = 5 := by
    rw [new_height_3456_5617]
    decide
  refine ⟨?_, new_height_3456_5617, hpaper, hpark, ?_⟩
  · norm_num [LemonPaper.new_height, LemonPaper.scale_factor,
      LemonPaper.tile_width_points]
  · rw [hpaper, hpark]
    decide

/-- Claim C5: on every page composed by `create_pdf` (page width
`total_width_points`, page height `total_height_points`), the footer overlay
recovers the original tile width `tile_width_points` (the horizontal
extension excluded), scales the footer bitmap to that width with
aspect-preserving height `W * (bitmapHeight / bitmapWidth)`, stamps it flush
against the bottom edge (`y0 = pageHeight - footerHeight`, `y1 = pageHeight`),
and places one copy per tile column at exactly the x-offset where that
column's image is drawn. -/
theorem c5_footer_band_geometry (width_ft height_ft : ℕ) (spacing_points : ℚ)
    (double_blade : Bool) (footer_pixmap_width footer_pixmap_height : ℕ) :
    LemonPark.footer_rects
        (LemonPark.total_width_points width_ft double_blade spacing_points)
        (LemonPark.total_height_points height_ft) spacing_points double_blade
        footer_pixmap_width footer_pixmap_height =
      (LemonPark.image_x_offsets width_ft spacing_points double_blade).map
        (fun x =>
          ⟨x,
           (LemonPark.total_height_points height_ft : ℚ) -
             (LemonPark.tile_width_points width_ft : ℚ) *
               ((footer_pixmap_height : ℚ) / (footer_pixmap_width : ℚ)),
           x + (LemonPark.tile_width_points width_ft : ℚ),
           (LemonPark.total_height_points height_ft : ℚ)⟩) := by
  cases double_blade <;>
    · simp only [LemonPark.footer_rects, LemonPark.image_x_offsets,
        LemonPark.total_width_points, LemonPark.page_extended_tile_width,
        LemonPark.footer_height, LemonPark.extended_tile_width,
        List.map_cons, List.map_nil, if_true, if_false, Bool.false_eq_true,
        ite_true, ite_false, List.cons.injEq, List.nil_eq, and_true,
        LemonPark.Rect.mk.injEq]
      norm_num
      ring

/-- Claim C6 fails as stated: on a double-blade page (widthFt 2, spacing 20,
heightFt 13, a 100×50 footer bitmap, so footer height 864), the design-name
text is stamped at `y = pageHeight - footerHeight * 0.53`, not at the claimed
`y = pageHeight - footerHeight * 0.54` (the single-blade path uses 0.54, the
double-blade path 0.53). -/
theorem c6_counterexample :
    LemonPark.footer_height 100 50 1728 = 864 ∧
    (LemonPark.text_positions (LemonPark.total_width_points 2 true 20)
        (LemonPark.total_height_points 13) 20 true 100 50).map Prod.snd =
      [11232 - 864 * (53 / 100), 11232 - 864 * (53 / 100)] ∧
    (11232 - 864 * (53 / 100) : ℚ) ≠ 11232 - 864 * (54 / 100) := by
  refine ⟨by norm_num [LemonPark.footer_height], ?_, by norm_num⟩
  norm_num [LemonPark.text_positions, LemonPark.total_width_points,
    LemonPark.page_extended_tile_width, LemonPark.footer_height,
    LemonPark.extended_tile_width, LemonPark.tile_width_points,
    LemonPark.total_height_points, LemonPark.HORIZONTAL_EXTENSION_POINTS]

/-- Claim C6, amended: on every composed page and for every tile column the
design name is stamped at `x = columnLeft + footerWidth * 0.77`, and at
`y = pageHeight - footerHeight * 0.54` on single-blade pages but
`y = pageHeight - footerHeight * 0.53` on double-blade pages. -/
theorem c6_amended_text_positions (width_ft height_ft : ℕ) (spacing_points : ℚ)
    (double_blade : Bool) (footer_pixmap_width footer_pixmap_height : ℕ) :
    LemonPark.text_positions
        (LemonPark.total_width_points width_ft double_blade spacing_points)
        (LemonPark.total_height_points height_ft) spacing_points double_blade
        footer_pixmap_width footer_pixmap_height =
      (LemonPark.image_x_offsets width_ft spacing_points double_blade).map
        (fun x =>
          (x + (LemonPark.tile_width_points width_ft : ℚ) * (77 / 100),
           (LemonPark.total_height_points height_ft : ℚ) -
             (LemonPark.tile_width_points width_ft : ℚ) *
               ((footer_pixmap_height : ℚ) / (footer_pixmap_width : ℚ)) *
               (if double_blade then (53 : ℚ) / 100 else 54 / 100))) := by
  cases double_blade <;>
    · simp only [LemonPark.text_positions, LemonPark.image_x_offsets,
        LemonPark.total_width_points, LemonPark.page_extended_tile_width,
        LemonPark.footer_height, LemonPark.extended_tile_width,
        List.map_cons, List.map_nil, if_true, if_false, Bool.false_eq_true,
        ite_true, ite_false, List.cons.injEq, List.nil_eq, and_true,
        Prod.mk.injEq]
      norm_num
      ring

/-- On a positive-width image, a zero truncated tile height fails at
line 70's resize (`ValueError`), before the line-77 division runs. -/
lemma plan_tiles_zero_height (img_width img_height width_ft height_ft : ℕ)
    (hw : img_width ≠ 0)
    (h0 : LemonPark.new_height img_width img_height width_ft = 0) :
    LemonPark.plan_tiles img_width img_height width_ft height_ft =
      .error .valueError := by
  simp [LemonPark.plan_tiles, hw, h0]

/-- The line-77 division `total_height_points // new_height` is only reached
with a positive `new_height`: on a positive-width image the planner never
fails with `ZeroDivisionError`. -/
lemma plan_tiles_ne_zeroDivision (img_width img_height width_ft height_ft : ℕ)
    (hw : img_width ≠ 0) :
    LemonPark.plan_tiles img_width img_height width_ft height_ft ≠
      .error .zeroDivision := by
  simp only [LemonPark.plan_tiles, if_neg hw]
  split <;> simp

/-- A zero truncated tile height makes the whole variant fail: the blanket
handler catches the raised exception and no output file is produced. -/
lemma create_pdf_zero_height (img_width img_height height_ft : ℕ)
    (fs : String → Bool) (label : String) (double_blade : Bool)
    (h0 : LemonPark.new_height img_width img_height 2 = 0) :
    LemonPark.create_pdf fs img_width img_height height_ft label double_blade =
      none := by
  unfold LemonPark.create_pdf
  rcases eq_or_ne img_width 0 with h | h
  · simp [LemonPark.plan_tiles, h]
  · rw [plan_tiles_zero_height img_width img_height 2 height_ft h h0]

/-- Claim C7 fails as stated: on a zero-tile-height input there is no
`InvalidInput` check anywhere in the code — the modelled `create_pdf` fails
with Pillow's `ValueError` at line 70's `img.resize`, the first operation to
reject the degenerate height. -/
theorem c7_counterexample :
    LemonPark.new_height 3000 0 2 = 0 ∧
    LemonPark.plan_tiles 3000 0 2 13 = .error .valueError ∧
    LemonPark.plan_tiles 3000 0 2 13 ≠ .error .invalidInput := by
  have hp := plan_tiles_zero_height 3000 0 2 13 (by decide) new_height_3000_0
  refine ⟨new_height_3000_0, hp, ?_⟩
  rw [hp]
  simp

/-- Claim C7, amended: when the computed tile height is 0 the variant fails
before the tile-count division is reached — Pillow's resize at line 70
raises `ValueError: height and width must be > 0` (there is no `InvalidInput`
validation and no `ZeroDivisionError`); the blanket per-variant handler
catches it, so the variant terminates without producing an output file
rather than looping unboundedly. -/
theorem c7_amended_zero_height_fails (img_width img_height height_ft : ℕ)
    (fs : String → Bool) (label : String) (double_blade : Bool)
    (hw : img_width ≠ 0)
    (h0 : LemonPark.new_height img_width img_height 2 = 0) :
    LemonPark.plan_tiles img_width img_height 2 height_ft =
      .error .valueError ∧
    LemonPark.plan_tiles img_width img_height 2 height_ft ≠
      .error .zeroDivision ∧
    LemonPark.create_pdf fs img_width img_height height_ft label double_blade =
      none :=
  ⟨plan_tiles_zero_height img_width img_height 2 height_ft hw h0,
   plan_tiles_ne_zeroDivision img_width img_height 2 height_ft hw,
   create_pdf_zero_height img_width img_height height_ft fs label double_blade h0⟩

/-- Witness for the amended C7 at the zero-height image 3000×0. -/
theorem c7_amended_zero_height_fails_witness :
    ((3000 : ℕ) ≠ 0 ∧ LemonPark.new_height 3000 0 2 = 0) ∧
    (LemonPark.plan_tiles 3000 0 2 13 = .error .valueError ∧
     LemonPark.plan_tiles 3000 0 2 13 ≠ .error .zeroDivision ∧
     LemonPark.create_pdf (fun _ => true) 3000 0 13 "P&S" false = none) :=
  ⟨⟨by decide, new_height_3000_0⟩,
   c7_amended_zero_height_fails 3000 0 13 (fun _ => true) "P&S" false
     (by decide) new_height_3000_0⟩

/-- Claim C10 fails as stated: at the wide-aspect 2000×1 image the truncated
tile height is 0, but the variant fails with Pillow's `ValueError` at
line 70's resize — the division at line 77 is never reached, so
`total_height_points // new_height` never raises `ZeroDivisionError`. -/
theorem c10_counterexample :
    LemonPark.new_height 2000 1 2 = 0 ∧
    LemonPark.plan_tiles 2000 1 2 13 = .error .valueError ∧
    LemonPark.plan_tiles 2000 1 2 13 ≠ .error .zeroDivision := by
  have hp := plan_tiles_zero_height 2000 1 2 13 (by decide) new_height_2000_1
  refine ⟨new_height_2000_1, hp, ?_⟩
  rw [hp]
  simp

/-- Claim C10, amended: for every image with strictly positive pixel height
whose aspect ratio is wide enough that `img_height * 1728 < img_width`
(equivalently `int(img_height * 1728 / img_width) = 0`), the truncated tile
height is 0 and the variant fails — but at line 70's resize with Pillow's
`ValueError`, which the blanket handler catches and prints, so no output
file is produced; the tile-count division at line 77 is never reached, and
on a positive-width image the planner never raises `ZeroDivisionError`. -/
theorem c10_amended_wide_aspect_value_error (img_width img_height height_ft : ℕ)
    (fs : String → Bool) (label : String) (double_blade : Bool)
    (hw : 0 < img_width) (_hh : 0 < img_height)
    (hwide : img_height * 1728 < img_width) :
    LemonPark.new_height img_width img_height 2 = 0 ∧
    LemonPark.plan_tiles img_width img_height 2 height_ft =
      .error .valueError ∧
    LemonPark.create_pdf fs img_width img_height height_ft label double_blade =
      none ∧
    (∀ w h wf hf : ℕ, w ≠ 0 →
      LemonPark.plan_tiles w h wf hf ≠ .error .zeroDivision) := by
  have h0 : LemonPark.new_height img_width img_height 2 = 0 := by
    rw [LemonPark.new_height_eq_div img_width img_height 2 hw]
    have : img_height * LemonPark.tile_width_points 2 = img_height * 1728 := by
      simp [LemonPark.tile_width_points]
    rw [this]
    exact Nat.div_eq_of_lt hwide
  exact ⟨h0,
    plan_tiles_zero_height img_width img_height 2 height_ft
      (Nat.pos_iff_ne_zero.mp hw) h0,
    create_pdf_zero_height img_width img_height height_ft fs label double_blade h0,
    fun w h wf hf hw0 => plan_tiles_ne_zeroDivision w h wf hf hw0⟩

/-- Witness for the amended C10 at the 2000×1 image (positive height, wide
aspect). -/
theorem c10_amended_wide_aspect_value_error_witness :
    (0 < 2000 ∧ 0 < 1 ∧ 1 * 1728 < 2000) ∧
    (LemonPark.new_height 2000 1 2 = 0 ∧
     LemonPark.plan_tiles 2000 1 2 13 = .error .valueError ∧
     LemonPark.create_pdf (fun _ => true) 2000 1 13 "P&S" false = none ∧
     (∀ w h wf hf : ℕ, w ≠ 0 →
       LemonPark.plan_tiles w h wf hf ≠ .error .zeroDivision)) :=
  ⟨by decide,
   c10_amended_wide_aspect_value_error 2000 1 13 (fun _ => true) "P&S" false
     (by decide) (by decide) (by decide)⟩
